import Mathlib

/-!
Verification development for the OxidoBoy host runtime
(`oxido_core/src/runtime.rs`).

The Rust source is embedded shallowly:

* `f32` values are modelled as exact rationals (`ℚ`).  Every operation the
  embedded code performs on them (addition, subtraction, multiplication,
  division, `max`, `clamp`, comparisons) is mirrored by the corresponding
  exact operation on `ℚ`.  The one transcendental operation,
  `2.0f32.powf(semi / 12.0)` inside `hz_for_semitone`, has no exact rational
  value, so the embedding abstracts it as an explicit function parameter
  `powtwo : ℤ → ℚ` standing for `semi ↦ 2^(semi/12)`.
* Machine integers (`u32`, `i32`, `usize`) are modelled as `Nat`/`Int`; the
  saturating float-to-integer `as` casts and the wrapping/truncating integer
  casts are written out explicitly where they occur.
* A Rust panic (slice index out of range) is modelled as an explicit
  `HostRead.indexOutOfRange` result.
-/

/-- Host-side per-voice record (`struct HostCh` in `runtime.rs`): the control
parameters received from the game followed by the runtime synthesis state. -/
structure HostCh where
  kind : Nat
  base_freq : ℚ
  vol : ℚ
  duty : ℚ
  gate : Bool
  a_ms : ℚ
  d_ms : ℚ
  s_lvl : ℚ
  r_ms : ℚ
  arp_a : ℤ
  arp_b : ℤ
  arp_c : ℤ
  arp_rate_hz : ℚ
  phase : ℚ
  noise : Nat
  env_level : ℚ
  env_state : Nat
  gate_prev : Bool
  arp_phase : ℚ
deriving DecidableEq

/-- `HostCh::default()`: all fields zero / false. -/
def hostChDefault : HostCh :=
  { kind := 0, base_freq := 0, vol := 0, duty := 0, gate := false,
    a_ms := 0, d_ms := 0, s_lvl := 0, r_ms := 0,
    arp_a := 0, arp_b := 0, arp_c := 0, arp_rate_hz := 0,
    phase := 0, noise := 0, env_level := 0, env_state := 0,
    gate_prev := false, arp_phase := 0 }

/-- Wire-format channel record (`struct WireCh`): the exact 13-field layout
sent by the game, already decoded field by field. -/
structure WireCh where
  kind : Nat
  base_freq : ℚ
  vol : ℚ
  duty : ℚ
  gate : Nat
  a_ms : ℚ
  d_ms : ℚ
  s_lvl : ℚ
  r_ms : ℚ
  arp_a : ℤ
  arp_b : ℤ
  arp_c : ℤ
  arp_rate_hz : ℚ
deriving DecidableEq

/-- One iteration of the loop body of `AudioEngine::set_params`: start from
the previous host record (`let mut h = prev;`), overwrite the control
parameters (with the source's clamps), keep the runtime state fields. -/
def setParamsCh (prev : HostCh) (s : WireCh) : HostCh :=
  { prev with
    kind := s.kind
    base_freq := s.base_freq
    vol := s.vol
    duty := s.duty
    gate := s.gate != 0
    a_ms := max s.a_ms 0
    d_ms := max s.d_ms 0
    s_lvl := min (max s.s_lvl 0) 1
    r_ms := max s.r_ms 0
    arp_a := s.arp_a
    arp_b := s.arp_b
    arp_c := s.arp_c
    arp_rate_hz := max s.arp_rate_hz 0 }

/-- `AudioEngine::set_params`: `for i in 0..dst.len().min(src.len())`,
update entry `i` pairwise; destination entries beyond the source length are
left untouched. -/
def set_params : List HostCh → List WireCh → List HostCh
  | [], _ => []
  | d :: ds, [] => d :: ds
  | d :: ds, s :: ss => setParamsCh d s :: set_params ds ss

/-- `hz_for_semitone(base, semi)`.  `powtwo semi` stands for the `f32`
computation `2.0f32.powf(semi as f32 / 12.0)`. -/
def hz_for_semitone (powtwo : ℤ → ℚ) (base : ℚ) (semi : ℤ) : ℚ :=
  if semi = 0 then base else base * powtwo semi

/-- Edge-detection half of `step_env`: the two `if` blocks handling
`gate` edges, followed by `ch.gate_prev = ch.gate;`.  Durations are used in
seconds (`ch.a_ms / 1000.0`, `ch.r_ms / 1000.0`). -/
def stepEnvEdge (ch : HostCh) : HostCh :=
  if ch.gate && !ch.gate_prev then
    (if ch.a_ms / 1000 ≤ 0 then
      { ch with env_level := 1, env_state := 2, gate_prev := ch.gate }
    else
      { ch with env_state := 1, gate_prev := ch.gate })
  else if !ch.gate && ch.gate_prev then
    (if ch.r_ms / 1000 ≤ 0 then
      { ch with env_level := 0, env_state := 0, gate_prev := ch.gate }
    else
      { ch with env_state := 4, gate_prev := ch.gate })
  else { ch with gate_prev := ch.gate }

/-- Attack-branch level update: `if a > 0.0 { level + step / a } else { 1.0 }`. -/
def attackLvl (ch : HostCh) (step : ℚ) : ℚ :=
  if ch.a_ms / 1000 > 0 then ch.env_level + step / (ch.a_ms / 1000) else 1

/-- Decay-branch level update:
`if d > 0.0 { level - (step / d) * (1 - s).max(0.0) } else { s }`. -/
def decayLvl (ch : HostCh) (step : ℚ) : ℚ :=
  if ch.d_ms / 1000 > 0 then
    ch.env_level - (step / (ch.d_ms / 1000)) * max (1 - ch.s_lvl) 0
  else ch.s_lvl

/-- Release-branch level update:
`if r > 0.0 { level - (step / r) * level.max(0.0) } else { 0.0 }`. -/
def releaseLvl (ch : HostCh) (step : ℚ) : ℚ :=
  if ch.r_ms / 1000 > 0 then
    ch.env_level - (step / (ch.r_ms / 1000)) * max ch.env_level 0
  else 0

/-- The `match ch.env_state` stage update of `step_env`
(states: 0 = idle, 1 = attack, 2 = decay, 3 = sustain, 4 = release). -/
def stepEnvStage (ch : HostCh) (step : ℚ) : HostCh :=
  if ch.env_state = 1 then
    (if attackLvl ch step ≥ 1 then { ch with env_level := 1, env_state := 2 }
     else { ch with env_level := attackLvl ch step })
  else if ch.env_state = 2 then
    (if decayLvl ch step ≤ ch.s_lvl then
      { ch with env_level := ch.s_lvl, env_state := 3 }
     else { ch with env_level := decayLvl ch step })
  else if ch.env_state = 3 then
    (if !ch.gate then { ch with env_level := ch.s_lvl, env_state := 4 }
     else { ch with env_level := ch.s_lvl })
  else if ch.env_state = 4 then
    (if releaseLvl ch step ≤ 0 then { ch with env_level := 0, env_state := 0 }
     else { ch with env_level := releaseLvl ch step })
  else { ch with env_level := if ch.gate then 1 else 0 }

/-- `step_env(ch, step)`: edge detection, `gate_prev` update, then the stage
state machine, all within one call. -/
def step_env (ch : HostCh) (step : ℚ) : HostCh :=
  stepEnvStage (stepEnvEdge ch) step

/-- Next arpeggio phase: `arp_phase += step * rate; if >= 1.0 { -= 1.0 }`. -/
def arpPhaseNext (ch : HostCh) (step : ℚ) : ℚ :=
  if ch.arp_phase + step * ch.arp_rate_hz ≥ 1 then
    ch.arp_phase + step * ch.arp_rate_hz - 1
  else ch.arp_phase + step * ch.arp_rate_hz

/-- Arpeggio segment: `(p * 3.0) as u32 % 3`.  The Rust float-to-`u32` `as`
cast truncates toward zero and saturates, which for the values involved is
`floor`, clamped below by 0 (`Int.toNat`) and above by `2^32 - 1`. -/
def arpSeg (p : ℚ) : Nat :=
  min (p * 3).floor.toNat (2 ^ 32 - 1) % 3

/-- Semitone selected by the arpeggio segment of phase `p`. -/
def arpSemi (ch : HostCh) (p : ℚ) : ℤ :=
  if arpSeg p = 0 then ch.arp_a
  else if arpSeg p = 1 then ch.arp_b
  else ch.arp_c

/-- State effect of the arpeggio block: the phase accumulator advances only
when `arp_rate_hz > 0.0`. -/
def chanArp (ch : HostCh) (step : ℚ) : HostCh :=
  if ch.arp_rate_hz > 0 then { ch with arp_phase := arpPhaseNext ch step }
  else ch

/-- Instantaneous frequency computed by the arpeggio block: base frequency,
shifted by the selected semitone when arpeggiation is active and the
semitone is nonzero. -/
def chanFreq (powtwo : ℤ → ℚ) (step : ℚ) (ch : HostCh) : ℚ :=
  if ch.arp_rate_hz > 0 then
    (if arpSemi ch (arpPhaseNext ch step) ≠ 0 then
      hz_for_semitone powtwo ch.base_freq (arpSemi ch (arpPhaseNext ch step))
    else ch.base_freq)
  else ch.base_freq

/-- Envelope step followed by the arpeggio block: the per-channel prefix of
the `fill_buffer` loop body, before the amplitude test.  Returns the updated
channel together with the instantaneous frequency. -/
def chanPre (powtwo : ℤ → ℚ) (step : ℚ) (ch0 : HostCh) : HostCh × ℚ :=
  (chanArp (step_env ch0 step) step, chanFreq powtwo step (step_env ch0 step))

/-- Per-channel amplitude: `(ch.vol * ch.env_level).clamp(0.0, 1.0)`. -/
def ampOf (ch : HostCh) : ℚ :=
  min (max (ch.vol * ch.env_level) 0) 1

/-- Next pulse phase: `phase += freq * step; if >= 1.0 { -= 1.0 }`. -/
def pulsePhase (ch : HostCh) (freq step : ℚ) : ℚ :=
  if ch.phase + freq * step ≥ 1 then ch.phase + freq * step - 1
  else ch.phase + freq * step

/-- One LFSR step of the noise register:
`bit = (n ^ (n >> 1)) & 1; n = ((n >> 1) | (bit << 14)) & 0x7FFF`,
reseeded to `0x4000` when the result is zero. -/
def noiseNext (ch : HostCh) : Nat :=
  if ((ch.noise >>> 1) ||| (((ch.noise ^^^ (ch.noise >>> 1)) &&& 1) <<< 14)) &&& 0x7FFF = 0
  then 0x4000
  else ((ch.noise >>> 1) ||| (((ch.noise ^^^ (ch.noise >>> 1)) &&& 1) <<< 14)) &&& 0x7FFF

/-- Noise clock divider: `(sr / freq.max(1.0)).max(1.0) as u32`
(truncating, saturating float-to-`u32` cast; the value is at least 1). -/
def noiseSteps (sr freq : ℚ) : Nat :=
  min (max (sr / max freq 1) 1).floor.toNat (2 ^ 32 - 1)

/-- Waveform generation arm of the `fill_buffer` loop body
(`match ch.kind`): pulse for kinds 0 and 1, noise for kind 2, silence (and
no state change) otherwise.  `t` is the running sample counter (a `usize`),
used through the truncating `as u32` cast. -/
def chanWave (sr step : ℚ) (t : Nat) (ch : HostCh) (freq amp : ℚ) :
    HostCh × ℚ :=
  if ch.kind = 0 ∨ ch.kind = 1 then
    ({ ch with phase := pulsePhase ch freq step },
      (if pulsePhase ch freq step < ch.duty then (1 : ℚ) else -1) * amp)
  else if ch.kind = 2 then
    (if (t % 2 ^ 32) % noiseSteps sr freq = 0 then
      ({ ch with noise := noiseNext ch },
        (if noiseNext ch &&& 1 ≠ 0 then (1 : ℚ) else -1) * amp)
    else
      (ch, (if ch.noise &&& 1 ≠ 0 then (1 : ℚ) else -1) * amp))
  else (ch, 0)

/-- Full per-channel loop body of `fill_buffer`: envelope, arpeggio, then
the short-circuit `if amp <= 0.0001 { continue; }` (the `f32` literal
`0.0001` is exactly the comparison threshold, modelled as `1/10000`),
and finally waveform generation.  Returns the updated channel and its
contribution to the mix. -/
def chanStep (powtwo : ℤ → ℚ) (sr step : ℚ) (t : Nat) (ch0 : HostCh) :
    HostCh × ℚ :=
  if ampOf (chanPre powtwo step ch0).1 ≤ 1 / 10000 then
    ((chanPre powtwo step ch0).1, 0)
  else
    chanWave sr step t (chanPre powtwo step ch0).1 (chanPre powtwo step ch0).2
      (ampOf (chanPre powtwo step ch0).1)

/-- Modelled from the spec (§4.2 waveform generation, used as the reference
computation for the skip short-circuit): the per-channel loop body without
the `amp <= 0.0001` short-circuit — it always evaluates the waveform,
advances the oscillator phase / noise register, and adds the (near-zero)
contribution. -/
def chanStepSpecUnskipped (powtwo : ℤ → ℚ) (sr step : ℚ) (t : Nat)
    (ch0 : HostCh) : HostCh × ℚ :=
  chanWave sr step t (chanPre powtwo step ch0).1 (chanPre powtwo step ch0).2
    (ampOf (chanPre powtwo step ch0).1)

/-- The inner `for ch in loc.iter_mut()` loop of `fill_buffer` for one output
frame: every channel is stepped and the contributions are accumulated into
the mix (accumulation order is immaterial over `ℚ`). -/
def frameChans (powtwo : ℤ → ℚ) (sr step : ℚ) (t : Nat) :
    List HostCh → List HostCh × ℚ
  | [] => ([], 0)
  | ch :: rest =>
    ((chanStep powtwo sr step t ch).1 ::
        (frameChans powtwo sr step t rest).1,
      (chanStep powtwo sr step t ch).2 +
        (frameChans powtwo sr step t rest).2)

/-- One output frame of `fill_buffer`: channel mix followed by
`mix = (mix * 0.25).clamp(-1.0, 1.0)` (headroom scale and hard clip). -/
def frameStep (powtwo : ℤ → ℚ) (sr step : ℚ) (t : Nat)
    (chans : List HostCh) : List HostCh × ℚ :=
  ((frameChans powtwo sr step t chans).1,
    min (max ((frameChans powtwo sr step t chans).2 * (1 / 4)) (-1)) 1)

/-- `fill_buffer(out, sr, channels, t_counter)` over `n` output frames with
`step = 1.0 / sr`: returns the post-render channel bank, the final sample
counter (`t_counter.wrapping_add(1)` per frame, a wrapping `usize`), and the
list of rendered `(left, right)` frames — the source writes
`frame[0] = mix; frame[1] = mix;`. -/
def fill_buffer (powtwo : ℤ → ℚ) (sr : ℚ) :
    Nat → Nat → List HostCh → List HostCh × Nat × List (ℚ × ℚ)
  | 0, t, chans => (chans, t, [])
  | Nat.succ n, t, chans =>
    ((fill_buffer powtwo sr n ((t + 1) % 2 ^ 64)
        (frameStep powtwo sr (1 / sr) t chans).1).1,
      (fill_buffer powtwo sr n ((t + 1) % 2 ^ 64)
        (frameStep powtwo sr (1 / sr) t chans).1).2.1,
      ((frameStep powtwo sr (1 / sr) t chans).2,
        (frameStep powtwo sr (1 / sr) t chans).2) ::
        (fill_buffer powtwo sr n ((t + 1) % 2 ^ 64)
          (frameStep powtwo sr (1 / sr) t chans).1).2.2)

-- ===================== Runtime (video + hot-reload + audio pump) ==========

/-- Result of the host's framebuffer fetch for one tick. -/
inductive HostRead where
  | ok (bytes : List Nat)
  | indexOutOfRange
deriving DecidableEq

/-- The framebuffer fetch of the per-tick loop body
(`let data = memory.data(&store); ... &data[ptr..ptr + len]`): the slice is
taken with no preceding bounds check, so a range that does not fit in the
module's linear memory is a Rust slice-index panic, which aborts the event
loop.  The panic is modelled as `HostRead.indexOutOfRange`; no byte outside
`mem` is ever produced. -/
def readFrameSlice (mem : List Nat) (ptr len : Nat) : HostRead :=
  if ptr + len ≤ mem.length then HostRead.ok ((mem.drop ptr).take len)
  else HostRead.indexOutOfRange

/-- Hot-reload-relevant per-run state: the installed module binding
(abstracted to an identifier — the source swaps `store`, `instance`,
`memory` and all typed entry points together), the recorded last-modified
timestamp, and the diagnostic reload counter. -/
structure ReloadState where
  handle : Nat
  lastMtime : Nat
  reloadCount : Nat
deriving DecidableEq

/-- Outcome of `instantiate_all` on the changed file, together with the
outcome of the subsequent `init` call (whose error the source discards via
`let _ = init.call(&mut store, ());`). -/
inductive InstResult where
  | ok (handle : Nat) (initOk : Bool)
  | err
deriving DecidableEq

/-- The hot-reload check of the per-tick loop body: when the file metadata is
readable and its modified time is newer than the recorded one, attempt
`instantiate_all`.  On success the whole binding is swapped, `init` is called
(result ignored), the timestamp is recorded and the reload counter bumped; on
failure everything is kept (`reload failed; keeping the previous version`). -/
def reloadCheck (st : ReloadState) (meta : Option Nat) (inst : InstResult) :
    ReloadState :=
  match meta with
  | none => st
  | some modTime =>
    if st.lastMtime < modTime then
      match inst with
      | InstResult.ok h _initOk =>
        { handle := h, lastMtime := modTime, reloadCount := st.reloadCount + 1 }
      | InstResult.err => st
    else st

/-- The audio-parameter section of the per-tick loop body.  `audio` is
`none` when the optional entry points are absent, the engine failed to start,
or either entry-point call errored (the `if let` guards); otherwise it holds
the reported block length in bytes and the decoded wire channels.  The block
is forwarded to `set_params` only when `blen >= 4 * 13 * 4`. -/
def audioParamStep (chans : List HostCh) (audio : Option (Nat × List WireCh)) :
    List HostCh :=
  match audio with
  | none => chans
  | some (blen, wire) =>
    if 4 * 13 * 4 ≤ blen then set_params chans wire else chans

-- ===================== Shared lemmas ======================================

lemma stepEnvEdge_a_ms (ch : HostCh) : (stepEnvEdge ch).a_ms = ch.a_ms := by
  unfold stepEnvEdge; split_ifs <;> rfl

lemma stepEnvEdge_d_ms (ch : HostCh) : (stepEnvEdge ch).d_ms = ch.d_ms := by
  unfold stepEnvEdge; split_ifs <;> rfl

lemma stepEnvEdge_r_ms (ch : HostCh) : (stepEnvEdge ch).r_ms = ch.r_ms := by
  unfold stepEnvEdge; split_ifs <;> rfl

lemma stepEnvEdge_s_lvl (ch : HostCh) : (stepEnvEdge ch).s_lvl = ch.s_lvl := by
  unfold stepEnvEdge; split_ifs <;> rfl

lemma stepEnvEdge_level_bounds (ch : HostCh)
    (h0 : 0 ≤ ch.env_level) (h1 : ch.env_level ≤ 1) :
    0 ≤ (stepEnvEdge ch).env_level ∧ (stepEnvEdge ch).env_level ≤ 1 := by
  unfold stepEnvEdge; split_ifs <;> constructor <;> first | assumption | norm_num

lemma attackLvl_nonneg (ch : HostCh) (step : ℚ)
    (hstep : 0 ≤ step) (h0 : 0 ≤ ch.env_level) : 0 ≤ attackLvl ch step := by
  unfold attackLvl
  split_ifs with h
  · have := div_nonneg hstep (le_of_lt h); linarith
  · norm_num

lemma decayLvl_le_one (ch : HostCh) (step : ℚ)
    (hstep : 0 ≤ step) (h1 : ch.env_level ≤ 1) (hs1 : ch.s_lvl ≤ 1) :
    decayLvl ch step ≤ 1 := by
  unfold decayLvl
  split_ifs with h
  · have := mul_nonneg (div_nonneg hstep (le_of_lt h))
      (le_max_right (1 - ch.s_lvl) 0)
    linarith
  · exact hs1

lemma releaseLvl_le_one (ch : HostCh) (step : ℚ)
    (hstep : 0 ≤ step) (h1 : ch.env_level ≤ 1) :
    releaseLvl ch step ≤ 1 := by
  unfold releaseLvl
  split_ifs with h
  · have := mul_nonneg (div_nonneg hstep (le_of_lt h))
      (le_max_right ch.env_level 0)
    linarith
  · norm_num

lemma stepEnvStage_level_bounds (ch : HostCh) (step : ℚ)
    (hstep : 0 ≤ step) (hs0 : 0 ≤ ch.s_lvl) (hs1 : ch.s_lvl ≤ 1)
    (h0 : 0 ≤ ch.env_level) (h1 : ch.env_level ≤ 1) :
    0 ≤ (stepEnvStage ch step).env_level ∧
      (stepEnvStage ch step).env_level ≤ 1 := by
  have hA := attackLvl_nonneg ch step hstep h0
  have hD := decayLvl_le_one ch step hstep h1 hs1
  have hR := releaseLvl_le_one ch step hstep h1
  unfold stepEnvStage
  split_ifs <;> constructor <;> first | linarith | norm_num

lemma step_env_level_bounds (ch : HostCh) (step : ℚ)
    (hstep : 0 ≤ step) (hs0 : 0 ≤ ch.s_lvl) (hs1 : ch.s_lvl ≤ 1)
    (h0 : 0 ≤ ch.env_level) (h1 : ch.env_level ≤ 1) :
    0 ≤ (step_env ch step).env_level ∧ (step_env ch step).env_level ≤ 1 := by
  have he := stepEnvEdge_level_bounds ch h0 h1
  have hs := stepEnvEdge_s_lvl ch
  unfold step_env
  exact stepEnvStage_level_bounds (stepEnvEdge ch) step hstep
    (by rw [hs]; exact hs0) (by rw [hs]; exact hs1) he.1 he.2

lemma stepEnvStage_state_ne_attack (ch : HostCh) (step : ℚ)
    (ha : ch.a_ms = 0) : (stepEnvStage ch step).env_state ≠ 1 := by
  have hA : attackLvl ch step = 1 := by
    unfold attackLvl; rw [ha]; norm_num
  unfold stepEnvStage
  split_ifs <;> simp_all

lemma stepEnvStage_attack_zero (ch : HostCh) (step : ℚ)
    (h1 : ch.env_state = 1) (ha : ch.a_ms = 0) :
    (stepEnvStage ch step).env_level = 1 ∧
      (stepEnvStage ch step).env_state = 2 := by
  have hA : attackLvl ch step = 1 := by
    unfold attackLvl; rw [ha]; norm_num
  simp [stepEnvStage, h1, hA]

lemma stepEnvStage_decay_zero (ch : HostCh) (step : ℚ)
    (h2 : ch.env_state = 2) (hd : ch.d_ms = 0) :
    (stepEnvStage ch step).env_level = ch.s_lvl ∧
      (stepEnvStage ch step).env_state = 3 := by
  have hD : decayLvl ch step = ch.s_lvl := by
    unfold decayLvl; rw [hd]; norm_num
  simp [stepEnvStage, h2, hD]

lemma stepEnvStage_release_zero (ch : HostCh) (step : ℚ)
    (h4 : ch.env_state = 4) (hr : ch.r_ms = 0) :
    (stepEnvStage ch step).env_level = 0 ∧
      (stepEnvStage ch step).env_state = 0 := by
  have hR : releaseLvl ch step = 0 := by
    unfold releaseLvl; rw [hr]; norm_num
  simp [stepEnvStage, h4, hR]

lemma ampOf_bounds (ch : HostCh) : 0 ≤ ampOf ch ∧ ampOf ch ≤ 1 :=
  ⟨le_min (le_max_right _ _) zero_le_one, min_le_right _ _⟩

lemma chanWave_preserves_env (sr step : ℚ) (t : Nat) (ch : HostCh)
    (freq amp : ℚ) :
    ((chanWave sr step t ch freq amp).1).env_level = ch.env_level ∧
    ((chanWave sr step t ch freq amp).1).env_state = ch.env_state ∧
    ((chanWave sr step t ch freq amp).1).gate_prev = ch.gate_prev ∧
    ((chanWave sr step t ch freq amp).1).arp_phase = ch.arp_phase := by
  unfold chanWave; split_ifs <;> simp

lemma chanWave_out_abs (sr step : ℚ) (t : Nat) (ch : HostCh)
    (freq amp : ℚ) :
    |(chanWave sr step t ch freq amp).2| ≤ |amp| := by
  unfold chanWave
  split_ifs <;> simp [abs_mul, abs_nonneg]

lemma chanStep_out_abs (powtwo : ℤ → ℚ) (sr step : ℚ) (t : Nat)
    (ch : HostCh) : |(chanStep powtwo sr step t ch).2| ≤ 1 := by
  unfold chanStep
  split_ifs with h
  · norm_num
  · calc |(chanWave sr step t (chanPre powtwo step ch).1
        (chanPre powtwo step ch).2 (ampOf (chanPre powtwo step ch).1)).2|
        ≤ |ampOf (chanPre powtwo step ch).1| := chanWave_out_abs _ _ _ _ _ _
      _ = ampOf (chanPre powtwo step ch).1 :=
        abs_of_nonneg (ampOf_bounds _).1
      _ ≤ 1 := (ampOf_bounds _).2

lemma frameChans_out_abs (powtwo : ℤ → ℚ) (sr step : ℚ) (t : Nat) :
    ∀ chans : List HostCh,
      |(frameChans powtwo sr step t chans).2| ≤ (chans.length : ℚ)
  | [] => by simp [frameChans]
  | ch :: rest => by
    have h1 := chanStep_out_abs powtwo sr step t ch
    have h2 := frameChans_out_abs powtwo sr step t rest
    have h3 := abs_add (chanStep powtwo sr step t ch).2
      (frameChans powtwo sr step t rest).2
    unfold frameChans
    simp only [List.length_cons]
    push_cast
    push_cast at h2
    linarith

lemma clamp_pm_one_bounds (x : ℚ) :
    -1 ≤ min (max x (-1)) 1 ∧ min (max x (-1)) 1 ≤ 1 :=
  ⟨le_min (le_max_right _ _) (by norm_num), min_le_right _ _⟩

-- ===================== Claim theorems =====================================

/-- C1: the spec requires that a framebuffer region with `ptr + len`
exceeding the module's linear memory size be reported as an `AbiError` for
that tick, with no out-of-bounds read and no crash.  The code performs the
slice `&data[ptr..ptr + len]` with no bounds check and has no `AbiError`
path at all: on the out-of-bounds input below (memory of 8 bytes, `ptr = 4`,
`len = 8`) the fetch is a Rust slice-index panic, which aborts the host
event loop.  The claim is right about the intended contract and the code
violates it. -/
theorem c1_frame_oob_read_is_host_panic :
    readFrameSlice (List.replicate 8 0) 4 8 = HostRead.indexOutOfRange := by
  decide

/-- C2, counterexample: a reload attempt in which instantiation succeeds but
the `init` call fails (`InstResult.ok 2 false`) does not keep the previous
module handle and timestamp — the new handle 2 is installed and the
timestamp advanced, because the source discards the `init` result
(`let _ = init.call(&mut store, ());`). -/
theorem c2_reload_init_failure_installs_new_module :
    reloadCheck ⟨1, 0, 0⟩ (some 1) (InstResult.ok 2 false) ≠ ⟨1, 0, 0⟩ ∧
    (reloadCheck ⟨1, 0, 0⟩ (some 1) (InstResult.ok 2 false)).handle = 2 ∧
    (reloadCheck ⟨1, 0, 0⟩ (some 1) (InstResult.ok 2 false)).lastMtime = 1 := by
  decide

/-- C2, amended: a reload attempt in which the new module fails to load or
instantiate leaves the installed module handle, the recorded last-modified
timestamp and the reload counter unchanged, so the previous module stays
authoritative.  A failure of the `init` call after successful instantiation,
however, is not rolled back: the new handle is installed and the timestamp
recorded regardless of the `init` outcome. -/
theorem c2_reload_failure_keeps_state_amended :
    (∀ (st : ReloadState) (meta : Option Nat),
        reloadCheck st meta InstResult.err = st) ∧
    (∀ (st : ReloadState) (mt h : Nat) (b : Bool), st.lastMtime < mt →
        reloadCheck st (some mt) (InstResult.ok h b) =
          ⟨h, mt, st.reloadCount + 1⟩) := by
  constructor
  · intro st meta
    cases meta with
    | none => rfl
    | some mt =>
      simp only [reloadCheck]
      split_ifs <;> rfl
  · intro st mt h b hlt
    simp only [reloadCheck]
    rw [if_pos hlt]

/-- C2, witness for the amended theorem at a concrete input. -/
theorem c2_reload_failure_witness :
    (5 : Nat) < 9 ∧
      reloadCheck ⟨1, 5, 0⟩ (some 9) (InstResult.ok 7 false) = ⟨7, 9, 1⟩ :=
  ⟨by decide,
    c2_reload_failure_keeps_state_amended.2 ⟨1, 5, 0⟩ 9 7 false (by decide)⟩

/-- C3: for every channel index and every wire block, `set_params` leaves
each synthesis-state field of the stored channel — oscillator phase, noise
register, envelope level, envelope stage, previous-gate flag and arpeggio
phase — bit-for-bit unchanged; only the control half is overwritten. -/
theorem c3_set_params_preserves_synthesis_state :
    ∀ (dst : List HostCh) (src : List WireCh) (i : Nat),
      ((set_params dst src)[i]?).map HostCh.phase =
          (dst[i]?).map HostCh.phase ∧
      ((set_params dst src)[i]?).map HostCh.noise =
          (dst[i]?).map HostCh.noise ∧
      ((set_params dst src)[i]?).map HostCh.env_level =
          (dst[i]?).map HostCh.env_level ∧
      ((set_params dst src)[i]?).map HostCh.env_state =
          (dst[i]?).map HostCh.env_state ∧
      ((set_params dst src)[i]?).map HostCh.gate_prev =
          (dst[i]?).map HostCh.gate_prev ∧
      ((set_params dst src)[i]?).map HostCh.arp_phase =
          (dst[i]?).map HostCh.arp_phase
  | [], _src, _i => by simp [set_params]
  | _d :: _ds, [], _i => by simp [set_params]
  | d :: ds, s :: ss, 0 => by simp [set_params, setParamsCh]
  | d :: ds, s :: ss, Nat.succ i => by
    simpa [set_params] using c3_set_params_preserves_synthesis_state ds ss i

/-- C7: in any tick where the audio block is absent (missing optional entry
points, failed entry-point calls, or no audio engine) or the reported block
length is smaller than `4 * 13 * 4 = 208` bytes, the audio engine's channel
bank — including gate state — is left exactly as it was; no partial update
occurs. -/
theorem c7_audio_params_unchanged :
    ∀ (chans : List HostCh) (audio : Option (Nat × List WireCh)),
      (audio = none ∨
        ∃ blen wire, audio = some (blen, wire) ∧ blen < 4 * 13 * 4) →
      audioParamStep chans audio = chans := by
  intro chans audio h
  rcases h with h | ⟨blen, wire, rfl, hlen⟩
  · rw [h]; rfl
  · simp only [audioParamStep]
    rw [if_neg (by omega)]

/-- C7, witness: a reported length of 100 bytes (< 208) leaves the engine
bank unchanged. -/
theorem c7_audio_params_witness :
    ((some (100, []) : Option (Nat × List WireCh)) = none ∨
      ∃ blen wire,
        (some (100, []) : Option (Nat × List WireCh)) = some (blen, wire) ∧
          blen < 4 * 13 * 4) ∧
    audioParamStep [hostChDefault] (some (100, [])) = [hostChDefault] :=
  ⟨Or.inr ⟨100, [], rfl, by norm_num⟩,
    c7_audio_params_unchanged [hostChDefault] (some (100, []))
      (Or.inr ⟨100, [], rfl, by norm_num⟩)⟩

/-- C6: for parameters that passed the `set_params` clamps (durations at
least 0, sustain level in `[0,1]`) and a level in `[0,1]`, one `step_env`
call keeps the level in `[0,1]`; moreover a zero attack duration never
leaves the envelope in the Attack stage, and a stage that is current after
edge handling with zero duration completes within that same step with its
exact target level (1 for Attack, the sustain level for Decay, 0 for
Release) — no fractional state is held at a zero-duration stage. -/
theorem c6_envelope_invariant :
    ∀ (ch : HostCh) (step : ℚ),
      0 ≤ step → 0 ≤ ch.a_ms → 0 ≤ ch.d_ms → 0 ≤ ch.r_ms →
      0 ≤ ch.s_lvl → ch.s_lvl ≤ 1 →
      0 ≤ ch.env_level → ch.env_level ≤ 1 →
      (0 ≤ (step_env ch step).env_level ∧
        (step_env ch step).env_level ≤ 1) ∧
      (ch.a_ms = 0 → (step_env ch step).env_state ≠ 1) ∧
      ((stepEnvEdge ch).env_state = 1 → ch.a_ms = 0 →
        (step_env ch step).env_level = 1 ∧
          (step_env ch step).env_state = 2) ∧
      ((stepEnvEdge ch).env_state = 2 → ch.d_ms = 0 →
        (step_env ch step).env_level = ch.s_lvl ∧
          (step_env ch step).env_state = 3) ∧
      ((stepEnvEdge ch).env_state = 4 → ch.r_ms = 0 →
        (step_env ch step).env_level = 0 ∧
          (step_env ch step).env_state = 0) := by
  intro ch step hstep ha hd hr hs0 hs1 h0 h1
  refine ⟨step_env_level_bounds ch step hstep hs0 hs1 h0 h1, ?_, ?_, ?_, ?_⟩
  · intro ha0
    exact stepEnvStage_state_ne_attack _ _ ((stepEnvEdge_a_ms ch).trans ha0)
  · intro h1s ha0
    exact stepEnvStage_attack_zero _ _ h1s ((stepEnvEdge_a_ms ch).trans ha0)
  · intro h2s hd0
    have h := stepEnvStage_decay_zero (stepEnvEdge ch) step h2s
      ((stepEnvEdge_d_ms ch).trans hd0)
    rw [stepEnvEdge_s_lvl] at h
    exact h
  · intro h4s hr0
    exact stepEnvStage_release_zero _ _ h4s ((stepEnvEdge_r_ms ch).trans hr0)

/-- Concrete channel used to witness C6: mid-decay record with a
zero-length decay stage. -/
def chC6w : HostCh :=
  { hostChDefault with
    gate := true
    gate_prev := true
    env_state := 2
    env_level := 3/4
    s_lvl := 1/2 }

/-- C6, witness: the invariant applied to a mid-decay channel with
zero-duration stages; the decay completes within the step, snapping the
level to the sustain level. -/
theorem c6_envelope_witness :
    (0 ≤ (1/48000 : ℚ) ∧ 0 ≤ chC6w.a_ms ∧ 0 ≤ chC6w.d_ms ∧
      0 ≤ chC6w.r_ms ∧ 0 ≤ chC6w.s_lvl ∧ chC6w.s_lvl ≤ 1 ∧
      0 ≤ chC6w.env_level ∧ chC6w.env_level ≤ 1) ∧
    ((0 ≤ (step_env chC6w (1/48000)).env_level ∧
        (step_env chC6w (1/48000)).env_level ≤ 1) ∧
      (chC6w.a_ms = 0 → (step_env chC6w (1/48000)).env_state ≠ 1) ∧
      ((stepEnvEdge chC6w).env_state = 1 → chC6w.a_ms = 0 →
        (step_env chC6w (1/48000)).env_level = 1 ∧
          (step_env chC6w (1/48000)).env_state = 2) ∧
      ((stepEnvEdge chC6w).env_state = 2 → chC6w.d_ms = 0 →
        (step_env chC6w (1/48000)).env_level = chC6w.s_lvl ∧
          (step_env chC6w (1/48000)).env_state = 3) ∧
      ((stepEnvEdge chC6w).env_state = 4 → chC6w.r_ms = 0 →
        (step_env chC6w (1/48000)).env_level = 0 ∧
          (step_env chC6w (1/48000)).env_state = 0)) :=
  ⟨⟨by norm_num, by norm_num [chC6w, hostChDefault],
      by norm_num [chC6w, hostChDefault], by norm_num [chC6w, hostChDefault],
      by norm_num [chC6w, hostChDefault], by norm_num [chC6w, hostChDefault],
      by norm_num [chC6w, hostChDefault], by norm_num [chC6w, hostChDefault]⟩,
    c6_envelope_invariant chC6w (1/48000) (by norm_num)
      (by norm_num [chC6w, hostChDefault]) (by norm_num [chC6w, hostChDefault])
      (by norm_num [chC6w, hostChDefault]) (by norm_num [chC6w, hostChDefault])
      (by norm_num [chC6w, hostChDefault]) (by norm_num [chC6w, hostChDefault])
      (by norm_num [chC6w, hostChDefault])⟩

/-- C8: a channel in Release with a gate edge `false → true` and a positive
attack duration re-enters Attack and ramps up from its current level: the
post-step level is exactly `min (level + step / (a_ms / 1000)) 1`, never
below the starting level and never reset to 0; while the ramp has not yet
reached 1 the level is exactly the ramp value (no snap) and the stage is
Attack, and on reaching 1 it clamps and moves to Decay. -/
theorem c8_release_retrigger_attack :
    ∀ (ch : HostCh) (step : ℚ),
      ch.env_state = 4 → ch.gate = true → ch.gate_prev = false →
      0 < ch.a_ms → 0 < ch.env_level → ch.env_level ≤ 1 → 0 ≤ step →
      (step_env ch step).env_level =
          min (ch.env_level + step / (ch.a_ms / 1000)) 1 ∧
      ch.env_level ≤ (step_env ch step).env_level ∧
      0 < (step_env ch step).env_level ∧
      ((step_env ch step).env_state = 1 ∨ (step_env ch step).env_state = 2) ∧
      (ch.env_level + step / (ch.a_ms / 1000) < 1 →
        (step_env ch step).env_level =
            ch.env_level + step / (ch.a_ms / 1000) ∧
          (step_env ch step).env_state = 1) := by
  intro ch step h4 hg hgp ha h0 h1 hstep
  have ha' : 0 < ch.a_ms / 1000 := by positivity
  have hstep' : 0 ≤ step / (ch.a_ms / 1000) := div_nonneg hstep ha'.le
  have hc : (ch.gate && !ch.gate_prev) = true := by rw [hg, hgp]; rfl
  have hE : stepEnvEdge ch = { ch with env_state := 1, gate_prev := true } := by
    unfold stepEnvEdge
    rw [if_pos hc, if_neg (not_le.mpr ha'), hg]
  have hA : attackLvl { ch with env_state := 1, gate_prev := true } step =
      ch.env_level + step / (ch.a_ms / 1000) := by
    unfold attackLvl
    rw [if_pos ha']
  unfold step_env
  rw [hE]
  unfold stepEnvStage
  rw [if_pos rfl, hA]
  by_cases hge : ch.env_level + step / (ch.a_ms / 1000) ≥ 1
  · rw [if_pos hge]
    exact ⟨(min_eq_right hge).symm, h1, one_pos, Or.inr rfl,
      fun hlt => absurd hge (not_le.mpr hlt)⟩
  · rw [if_neg hge]
    have hlt := lt_of_not_le hge
    exact ⟨(min_eq_left hlt.le).symm, by linarith, by linarith, Or.inl rfl,
      fun _ => ⟨rfl, rfl⟩⟩

/-- Concrete channel used to witness C8: mid-release at level 1/2, gate
re-asserted, one-second attack. -/
def ch8w : HostCh :=
  { hostChDefault with
    env_state := 4
    gate := true
    gate_prev := false
    a_ms := 1000
    env_level := 1/2
    vol := 1
    base_freq := 440
    duty := 1/2 }

/-- C8, witness: the retrigger theorem at the concrete mid-release channel;
one step raises the level from 1/2 by exactly `step`, staying in Attack. -/
theorem c8_release_retrigger_witness :
    (ch8w.env_state = 4 ∧ ch8w.gate = true ∧ ch8w.gate_prev = false ∧
      0 < ch8w.a_ms ∧ 0 < ch8w.env_level ∧ ch8w.env_level ≤ 1 ∧
      0 ≤ (1/48000 : ℚ)) ∧
    ((step_env ch8w (1/48000)).env_level =
        min (ch8w.env_level + (1/48000) / (ch8w.a_ms / 1000)) 1 ∧
      ch8w.env_level ≤ (step_env ch8w (1/48000)).env_level ∧
      0 < (step_env ch8w (1/48000)).env_level ∧
      ((step_env ch8w (1/48000)).env_state = 1 ∨
        (step_env ch8w (1/48000)).env_state = 2) ∧
      (ch8w.env_level + (1/48000) / (ch8w.a_ms / 1000) < 1 →
        (step_env ch8w (1/48000)).env_level =
            ch8w.env_level + (1/48000) / (ch8w.a_ms / 1000) ∧
          (step_env ch8w (1/48000)).env_state = 1)) :=
  ⟨⟨rfl, rfl, rfl, by norm_num [ch8w, hostChDefault],
      by norm_num [ch8w, hostChDefault], by norm_num [ch8w, hostChDefault],
      by norm_num⟩,
    c8_release_retrigger_attack ch8w (1/48000) rfl rfl rfl
      (by norm_num [ch8w, hostChDefault])
      (by norm_num [ch8w, hostChDefault])
      (by norm_num [ch8w, hostChDefault]) (by norm_num)⟩

/-- Stand-in for the `f32` power function `semi ↦ 2^(semi/12)` used by
witnesses whose channels have arpeggiation disabled (its value is then
irrelevant). -/
def pwOne : ℤ → ℚ := fun _ => 1

/-- The scenario channel of C5: channel 0 as pulse, `base_freq = 440`,
`duty = 0.5`, gate edge `false → true`, `attack = 0 ms`, remaining
parameters at their wire defaults (0). -/
def ch5cex : HostCh :=
  { kind := 0, base_freq := 440, vol := 1, duty := 1/2, gate := true,
    a_ms := 0, d_ms := 0, s_lvl := 0, r_ms := 0,
    arp_a := 0, arp_b := 0, arp_c := 0, arp_rate_hz := 0,
    phase := 0, noise := 0, env_level := 0, env_state := 0,
    gate_prev := false, arp_phase := 0 }

/-- C5, counterexample: in the claimed scenario (pulse, 440 Hz, duty 0.5,
gate `false → true`, attack 0 ms, default decay 0 and sustain 0) the
envelope level at the very first rendered sample is 0, not 1: the same
`step_env` call that snaps the level to 1.0 and enters Decay also runs the
Decay branch, which with `d_ms = 0` drops the level to the sustain level
before the sample is rendered (the channel is then even skipped as
silent). -/
theorem c5_first_sample_not_one :
    (chanStep pwOne 48000 (1/48000) 0 ch5cex).1.env_level = 0 ∧
    (chanStep pwOne 48000 (1/48000) 0 ch5cex).1.env_level ≠ 1 ∧
    (chanStep pwOne 48000 (1/48000) 0 ch5cex).2 = 0 := by
  norm_num [chanStep, chanPre, chanArp, chanFreq, ampOf, chanWave, step_env,
    stepEnvEdge, stepEnvStage, attackLvl, decayLvl, releaseLvl, ch5cex]

/-- C5, amended: with attack 0 ms the gate edge snaps the level to 1.0 and
enters Decay, but the very same synthesis step then applies one Decay
update, so the first rendered sample does not in general read 1.0: with
decay 0 it reads exactly the sustain level, and with positive decay it
reads a value in `[sustain_level, 1]` (1.0 exactly only when the decay
update is a no-op, e.g. sustain level 1). -/
theorem c5_attack_zero_amended :
    ∀ (ch : HostCh) (step : ℚ),
      ch.gate = true → ch.gate_prev = false → ch.a_ms = 0 →
      ((stepEnvEdge ch).env_level = 1 ∧ (stepEnvEdge ch).env_state = 2) ∧
      (ch.d_ms = 0 →
        (step_env ch step).env_level = ch.s_lvl ∧
          (step_env ch step).env_state = 3) ∧
      (0 < ch.d_ms → 0 ≤ step → 0 ≤ ch.s_lvl → ch.s_lvl ≤ 1 →
        ch.s_lvl ≤ (step_env ch step).env_level ∧
          (step_env ch step).env_level ≤ 1) := by
  intro ch step hg hgp ha
  have hc : (ch.gate && !ch.gate_prev) = true := by rw [hg, hgp]; rfl
  have ha' : ch.a_ms / 1000 ≤ 0 := by rw [ha]; norm_num
  have hE : stepEnvEdge ch =
      { ch with env_level := 1, env_state := 2, gate_prev := true } := by
    unfold stepEnvEdge
    rw [if_pos hc, if_pos ha', hg]
  refine ⟨by rw [hE]; exact ⟨rfl, rfl⟩, ?_, ?_⟩
  · intro hd0
    have h := stepEnvStage_decay_zero (stepEnvEdge ch) step (by rw [hE])
      ((stepEnvEdge_d_ms ch).trans hd0)
    rw [stepEnvEdge_s_lvl] at h
    exact h
  · intro hdpos hstep hs0 hs1
    have hd' : 0 < ch.d_ms / 1000 := by positivity
    unfold step_env
    rw [hE]
    unfold stepEnvStage
    rw [if_neg (by norm_num), if_pos rfl]
    have hD : decayLvl
        { ch with env_level := 1, env_state := 2, gate_prev := true } step =
        1 - (step / (ch.d_ms / 1000)) * max (1 - ch.s_lvl) 0 := by
      unfold decayLvl
      rw [if_pos hd']
    have hnn : 0 ≤ (step / (ch.d_ms / 1000)) * max (1 - ch.s_lvl) 0 :=
      mul_nonneg (div_nonneg hstep hd'.le) (le_max_right _ _)
    by_cases hle : decayLvl
        { ch with env_level := 1, env_state := 2, gate_prev := true } step ≤
        ch.s_lvl
    · rw [if_pos hle]
      exact ⟨le_refl _, hs1⟩
    · rw [if_neg hle]
      have := lt_of_not_le hle
      constructor
      · linarith
      · rw [hD]; linarith

/-- C5, witness for the amended theorem at the scenario channel: the edge
snaps to 1.0 and enters Decay, and with decay 0 the first rendered sample
reads the sustain level. -/
theorem c5_attack_zero_witness :
    (ch5cex.gate = true ∧ ch5cex.gate_prev = false ∧ ch5cex.a_ms = 0) ∧
    (((stepEnvEdge ch5cex).env_level = 1 ∧
        (stepEnvEdge ch5cex).env_state = 2) ∧
      (ch5cex.d_ms = 0 →
        (step_env ch5cex (1/48000)).env_level = ch5cex.s_lvl ∧
          (step_env ch5cex (1/48000)).env_state = 3) ∧
      (0 < ch5cex.d_ms → 0 ≤ (1/48000 : ℚ) → 0 ≤ ch5cex.s_lvl →
        ch5cex.s_lvl ≤ 1 →
        ch5cex.s_lvl ≤ (step_env ch5cex (1/48000)).env_level ∧
          (step_env ch5cex (1/48000)).env_level ≤ 1)) :=
  ⟨⟨rfl, rfl, rfl⟩, c5_attack_zero_amended ch5cex (1/48000) rfl rfl rfl⟩

/-- Channel used for C4: gate held in Sustain at level 1 with
`vol = 1/20000`, so its amplitude `1/20000` is positive but below the
`0.0001` skip threshold. -/
def ch4cex : HostCh :=
  { kind := 0, base_freq := 100, vol := 1/20000, duty := 1/2, gate := true,
    a_ms := 1, d_ms := 1, s_lvl := 1, r_ms := 1,
    arp_a := 0, arp_b := 0, arp_c := 0, arp_rate_hz := 0,
    phase := 0, noise := 0, env_level := 1, env_state := 3,
    gate_prev := true, arp_phase := 0 }

/-- C4, counterexample: skipping a below-epsilon channel is observably
different from the unskipped computation.  At `ch4cex` (amplitude
`1/20000 ≤ 0.0001`) the skipped step leaves the oscillator phase at 0 and
contributes 0, while the unskipped computation advances the phase to
`1/480` and contributes `1/20000`; the two results are not identical. -/
theorem c4_skip_not_identical :
    (chanStep pwOne 48000 (1/48000) 0 ch4cex).1.phase = 0 ∧
    (chanStepSpecUnskipped pwOne 48000 (1/48000) 0 ch4cex).1.phase = 1/480 ∧
    (chanStep pwOne 48000 (1/48000) 0 ch4cex).2 = 0 ∧
    (chanStepSpecUnskipped pwOne 48000 (1/48000) 0 ch4cex).2 = 1/20000 ∧
    chanStep pwOne 48000 (1/48000) 0 ch4cex ≠
      chanStepSpecUnskipped pwOne 48000 (1/48000) 0 ch4cex := by
  have h1 : (chanStep pwOne 48000 (1/48000) 0 ch4cex).1.phase = 0 := by
    norm_num [chanStep, chanPre, chanArp, chanFreq, ampOf, chanWave,
      pulsePhase, step_env, stepEnvEdge, stepEnvStage, attackLvl, decayLvl,
      releaseLvl, ch4cex]
  have h2 : (chanStepSpecUnskipped pwOne 48000 (1/48000) 0 ch4cex).1.phase =
      1/480 := by
    norm_num [chanStepSpecUnskipped, chanPre, chanArp, chanFreq, ampOf,
      chanWave, pulsePhase, step_env, stepEnvEdge, stepEnvStage, attackLvl,
      decayLvl, releaseLvl, ch4cex]
  have h3 : (chanStep pwOne 48000 (1/48000) 0 ch4cex).2 = 0 := by
    norm_num [chanStep, chanPre, chanArp, chanFreq, ampOf, chanWave,
      pulsePhase, step_env, stepEnvEdge, stepEnvStage, attackLvl, decayLvl,
      releaseLvl, ch4cex]
  have h4 : (chanStepSpecUnskipped pwOne 48000 (1/48000) 0 ch4cex).2 =
      1/20000 := by
    norm_num [chanStepSpecUnskipped, chanPre, chanArp, chanFreq, ampOf,
      chanWave, pulsePhase, step_env, stepEnvEdge, stepEnvStage, attackLvl,
      decayLvl, releaseLvl, ch4cex]
  refine ⟨h1, h2, h3, h4, fun h => ?_⟩
  rw [h, h2] at h1
  norm_num at h1

/-- C4, amended: when a channel's clamped amplitude is at most the `0.0001`
threshold, the skip leaves envelope level, envelope stage, previous-gate
flag and arpeggio phase identical to the unskipped computation and
contributes exactly 0; the unskipped computation would, however, advance
the oscillator phase / noise register (which the skip leaves untouched) and
add a contribution whose magnitude is at most `0.0001`, so the rendered
mix differs from the unskipped one by at most `0.0001` per skipped channel
before headroom scaling. -/
theorem c4_skip_effect_amended :
    ∀ (powtwo : ℤ → ℚ) (sr step : ℚ) (t : Nat) (ch : HostCh),
      ampOf (chanPre powtwo step ch).1 ≤ 1 / 10000 →
      (chanStep powtwo sr step t ch).1.env_level =
          (chanStepSpecUnskipped powtwo sr step t ch).1.env_level ∧
      (chanStep powtwo sr step t ch).1.env_state =
          (chanStepSpecUnskipped powtwo sr step t ch).1.env_state ∧
      (chanStep powtwo sr step t ch).1.gate_prev =
          (chanStepSpecUnskipped powtwo sr step t ch).1.gate_prev ∧
      (chanStep powtwo sr step t ch).1.arp_phase =
          (chanStepSpecUnskipped powtwo sr step t ch).1.arp_phase ∧
      (chanStep powtwo sr step t ch).2 = 0 ∧
      |(chanStepSpecUnskipped powtwo sr step t ch).2| ≤ 1 / 10000 ∧
      |(chanStepSpecUnskipped powtwo sr step t ch).2 -
          (chanStep powtwo sr step t ch).2| ≤ 1 / 10000 := by
  intro powtwo sr step t ch hamp
  have hskip : chanStep powtwo sr step t ch =
      ((chanPre powtwo step ch).1, 0) := by
    unfold chanStep
    rw [if_pos hamp]
  have hpres := chanWave_preserves_env sr step t (chanPre powtwo step ch).1
    (chanPre powtwo step ch).2 (ampOf (chanPre powtwo step ch).1)
  have habs := chanWave_out_abs sr step t (chanPre powtwo step ch).1
    (chanPre powtwo step ch).2 (ampOf (chanPre powtwo step ch).1)
  have hbound : |(chanWave sr step t (chanPre powtwo step ch).1
      (chanPre powtwo step ch).2 (ampOf (chanPre powtwo step ch).1)).2| ≤
      1 / 10000 := by
    calc |(chanWave sr step t (chanPre powtwo step ch).1
        (chanPre powtwo step ch).2 (ampOf (chanPre powtwo step ch).1)).2|
        ≤ |ampOf (chanPre powtwo step ch).1| := habs
      _ = ampOf (chanPre powtwo step ch).1 :=
        abs_of_nonneg (ampOf_bounds _).1
      _ ≤ 1 / 10000 := hamp
  rw [hskip]
  unfold chanStepSpecUnskipped
  simp only [sub_zero]
  exact ⟨hpres.1.symm, hpres.2.1.symm, hpres.2.2.1.symm, hpres.2.2.2.symm,
    trivial, hbound, hbound⟩

/-- C4, witness for the amended theorem at the concrete below-epsilon
channel. -/
theorem c4_skip_witness :
    ampOf (chanPre pwOne (1/48000) ch4cex).1 ≤ 1 / 10000 ∧
    ((chanStep pwOne 48000 (1/48000) 0 ch4cex).1.env_level =
        (chanStepSpecUnskipped pwOne 48000 (1/48000) 0 ch4cex).1.env_level ∧
      (chanStep pwOne 48000 (1/48000) 0 ch4cex).1.env_state =
        (chanStepSpecUnskipped pwOne 48000 (1/48000) 0 ch4cex).1.env_state ∧
      (chanStep pwOne 48000 (1/48000) 0 ch4cex).1.gate_prev =
        (chanStepSpecUnskipped pwOne 48000 (1/48000) 0 ch4cex).1.gate_prev ∧
      (chanStep pwOne 48000 (1/48000) 0 ch4cex).1.arp_phase =
        (chanStepSpecUnskipped pwOne 48000 (1/48000) 0 ch4cex).1.arp_phase ∧
      (chanStep pwOne 48000 (1/48000) 0 ch4cex).2 = 0 ∧
      |(chanStepSpecUnskipped pwOne 48000 (1/48000) 0 ch4cex).2| ≤ 1 / 10000 ∧
      |(chanStepSpecUnskipped pwOne 48000 (1/48000) 0 ch4cex).2 -
          (chanStep pwOne 48000 (1/48000) 0 ch4cex).2| ≤ 1 / 10000) :=
  have hamp : ampOf (chanPre pwOne (1/48000) ch4cex).1 ≤ 1 / 10000 := by
    norm_num [ampOf, chanPre, chanArp, chanFreq, step_env, stepEnvEdge,
      stepEnvStage, attackLvl, decayLvl, releaseLvl, ch4cex]
  ⟨hamp, c4_skip_effect_amended pwOne 48000 (1/48000) 0 ch4cex hamp⟩

/-- Channel pinned at maximum amplitude: sustain stage at level 1, gate
held, full volume, pulse with duty 1 so the waveform sample is +1 at
phase 0 (all four copies share the identical phase 0). -/
def chMax : HostCh :=
  { kind := 0, base_freq := 0, vol := 1, duty := 1, gate := true,
    a_ms := 1, d_ms := 1, s_lvl := 1, r_ms := 1,
    arp_a := 0, arp_b := 0, arp_c := 0, arp_rate_hz := 0,
    phase := 0, noise := 0, env_level := 1, env_state := 3,
    gate_prev := true, arp_phase := 0 }

/-- As `chMax` but with duty 0, so the waveform sample is `-1`. -/
def chMaxNeg : HostCh :=
  { kind := 0, base_freq := 0, vol := 1, duty := 0, gate := true,
    a_ms := 1, d_ms := 1, s_lvl := 1, r_ms := 1,
    arp_a := 0, arp_b := 0, arp_c := 0, arp_rate_hz := 0,
    phase := 0, noise := 0, env_level := 1, env_state := 3,
    gate_prev := true, arp_phase := 0 }

/-- C9: every rendered frame of `fill_buffer` writes the same mixed sample
to the left and the right slot, and that sample lies in `[-1, 1]`; with all
4 channels at maximum amplitude and identical phase the frame value is
pinned exactly at the boundary (`1`, and `-1` for the inverted duty),
clipped rather than overflowed. -/
theorem c9_mix_clamped_and_pinned :
    (∀ (powtwo : ℤ → ℚ) (sr : ℚ) (n t : Nat) (chans : List HostCh),
      ∀ p ∈ (fill_buffer powtwo sr n t chans).2.2,
        p.1 = p.2 ∧ -1 ≤ p.1 ∧ p.1 ≤ 1) ∧
    (frameStep pwOne 48000 (1/48000) 0 (List.replicate 4 chMax)).2 = 1 ∧
    (frameStep pwOne 48000 (1/48000) 0 (List.replicate 4 chMaxNeg)).2 =
      -1 := by
  refine ⟨?_, ?_, ?_⟩
  · intro powtwo sr n
    induction n with
    | zero =>
      intro t chans p hp
      simp [fill_buffer] at hp
    | succ n ih =>
      intro t chans p hp
      simp only [fill_buffer] at hp
      rcases List.mem_cons.mp hp with h | h
      · subst h
        exact ⟨rfl, (clamp_pm_one_bounds _).1, (clamp_pm_one_bounds _).2⟩
      · exact ih _ _ p h
  · norm_num [frameStep, frameChans, chanStep, chanPre, chanArp, chanFreq,
      ampOf, chanWave, pulsePhase, step_env, stepEnvEdge, stepEnvStage,
      attackLvl, decayLvl, releaseLvl, chMax, List.replicate]
  · norm_num [frameStep, frameChans, chanStep, chanPre, chanArp, chanFreq,
      ampOf, chanWave, pulsePhase, step_env, stepEnvEdge, stepEnvStage,
      attackLvl, decayLvl, releaseLvl, chMaxNeg, List.replicate]

/-- C9, witness: the single frame rendered from the four maxed channels is
`(1, 1)`, and the universal clause applied to it yields equal left/right
slots within `[-1, 1]`. -/
theorem c9_mix_witness :
    ((1 : ℚ), (1 : ℚ)) ∈
        (fill_buffer pwOne 48000 1 0 (List.replicate 4 chMax)).2.2 ∧
    (((1 : ℚ), (1 : ℚ)).1 = ((1 : ℚ), (1 : ℚ)).2 ∧
      -1 ≤ ((1 : ℚ), (1 : ℚ)).1 ∧ ((1 : ℚ), (1 : ℚ)).1 ≤ 1) :=
  have hm : ((1 : ℚ), (1 : ℚ)) ∈
      (fill_buffer pwOne 48000 1 0 (List.replicate 4 chMax)).2.2 := by
    norm_num [fill_buffer, frameStep, frameChans, chanStep, chanPre,
      chanArp, chanFreq, ampOf, chanWave, pulsePhase, step_env, stepEnvEdge,
      stepEnvStage, attackLvl, decayLvl, releaseLvl, chMax, List.replicate]
  ⟨hm, c9_mix_clamped_and_pinned.1 pwOne 48000 1 0 (List.replicate 4 chMax)
    ((1 : ℚ), (1 : ℚ)) hm⟩

/-- C10: the per-channel amplitude `(vol * env_level).clamp(0, 1)` is in
`[0, 1]`, so each channel contributes at most `±1` per sample even though
`set_params` copies the cartridge-supplied volume with no validation; the
pre-headroom mix of a 4-channel bank therefore always lies in `[-4, 4]`. -/
theorem c10_amp_clamped_mix_bounded :
    (∀ ch : HostCh, 0 ≤ ampOf ch ∧ ampOf ch ≤ 1) ∧
    (∀ (powtwo : ℤ → ℚ) (sr step : ℚ) (t : Nat) (ch : HostCh),
      |(chanStep powtwo sr step t ch).2| ≤ 1) ∧
    (∀ (prev : HostCh) (s : WireCh), (setParamsCh prev s).vol = s.vol) ∧
    (∀ (powtwo : ℤ → ℚ) (sr step : ℚ) (t : Nat) (chans : List HostCh),
      chans.length = 4 →
      -4 ≤ (frameChans powtwo sr step t chans).2 ∧
        (frameChans powtwo sr step t chans).2 ≤ 4) := by
  refine ⟨ampOf_bounds, chanStep_out_abs, fun prev s => rfl, ?_⟩
  intro powtwo sr step t chans hlen
  have h := frameChans_out_abs powtwo sr step t chans
  rw [hlen] at h
  norm_num at h
  exact abs_le.mp h

/-- C10, witness: the 4-channel bound applied to the default bank. -/
theorem c10_amp_witness :
    (List.replicate 4 hostChDefault).length = 4 ∧
    (-4 ≤ (frameChans pwOne 48000 (1/48000) 0
          (List.replicate 4 hostChDefault)).2 ∧
      (frameChans pwOne 48000 (1/48000) 0
          (List.replicate 4 hostChDefault)).2 ≤ 4) :=
  ⟨rfl, c10_amp_clamped_mix_bounded.2.2.2 pwOne 48000 (1/48000) 0
    (List.replicate 4 hostChDefault) rfl⟩
